/-
Verification of the recruitment-agent core: a shallow embedding of
`utils/text_extraction.py`, `utils/ai_client.py` and the résumé-batch
endpoint of `main.py`, with theorems settling the specification claims.

Conventions of the embedding:
* Python strings are Lean `String`s; operations that Python performs on
  `str` (lower, strip, len, slicing) are defined here over `String.data`
  so that they are kernel-computable.
* Python byte blobs are `List Nat` (each entry one byte).
* Python floats are modelled as rationals (`ℚ`): the claims under
  verification are about control flow, lengths and orderings, not about
  IEEE rounding.
* External libraries (pdfminer, PyPDF2, python-docx, the OpenAI SDK,
  `random.Random`) are modelled as explicit oracle parameters: the code
  under verification is only the repository's own logic around them.
* Raising an exception is modelled as `Except.error`; observable side
  effects of extraction (temp-file acquisition/release, reading the
  uploaded bytes) are returned as an explicit event trace.
-/
import Mathlib

namespace RecruitAI

/-- Decidable equality for `Except`, used to evaluate embedded results on
concrete inputs. -/
instance exceptDecEq {α β : Type} [DecidableEq α] [DecidableEq β] :
    DecidableEq (Except α β)
  | .ok x, .ok y =>
    if h : x = y then isTrue (congrArg Except.ok h)
    else isFalse (fun hh => h (Except.ok.inj hh))
  | .ok _, .error _ => isFalse (fun hh => Except.noConfusion hh)
  | .error _, .ok _ => isFalse (fun hh => Except.noConfusion hh)
  | .error x, .error y =>
    if h : x = y then isTrue (congrArg Except.error h)
    else isFalse (fun hh => h (Except.error.inj hh))

/-- Python `str.lower()` (ASCII case folding, which is all the source
applies it to: filename extensions). -/
def pyLower (s : String) : String := String.mk (s.data.map Char.toLower)

/-- The whitespace characters stripped by Python `str.strip()` (ASCII
part; the source only ever strips extracted document text). -/
def pyIsSpace (c : Char) : Bool :=
  c = ' ' || c = '\t' || c = '\n' || c = '\r' || c = '\x0b' || c = '\x0c'

/-- Python `str.strip()`: drop whitespace from both edges. -/
def pyStrip (s : String) : String :=
  String.mk (((s.data.dropWhile pyIsSpace).reverse.dropWhile pyIsSpace).reverse)

/-- Python `len` on a string (code points). -/
def pyLen (s : String) : Nat := s.data.length

/-- Python slicing `s[:n]` (code points). -/
def pySlice (s : String) (n : Nat) : String := String.mk (s.data.take n)

/-- Python `os.path.splitext(name)[1]` for a bare (separator-free)
uploaded filename: the extension starting at the last dot, where the
leading dots of the name never begin an extension. -/
def splitextExt (name : String) : String :=
  let l := name.data
  let rest := l.drop ((l.takeWhile (fun c => c == '.')).length)
  if rest.contains '.' then
    String.mk ('.' :: (rest.reverse.takeWhile (fun c => c != '.')).reverse)
  else ""

/-! ## UTF-8 decoding with the `errors="ignore"` handler

`text_extraction.py` reads `.txt` uploads with
`open(..., encoding="utf-8", errors="ignore")`: undecodable byte
sequences are dropped and decoding never fails.  The decoder below is
total by construction (structural recursion on the byte list). -/

/-- Is `c` a UTF-8 continuation byte (`0x80..0xBF`)? -/
def contByte (c : Nat) : Bool := 128 ≤ c && c ≤ 191

/-- Lower bound of the first continuation byte admitted after lead `b`
(leads `0xE0`/`0xF0` forbid overlong encodings). -/
def cont1Lo (b : Nat) : Nat := if b = 224 then 160 else if b = 240 then 144 else 128

/-- Upper bound of the first continuation byte admitted after lead `b`
(lead `0xED` excludes surrogates, `0xF4` caps at `U+10FFFF`). -/
def cont1Hi (b : Nat) : Nat := if b = 237 then 159 else if b = 244 then 143 else 191

/-- Is `c` admissible as the first continuation byte after lead `b`? -/
def cont1Ok (b c : Nat) : Bool := cont1Lo b ≤ c && c ≤ cont1Hi b

/-- UTF-8 decoding of a byte list with invalid sequences dropped
(`errors="ignore"`).  `fuel` only bounds the recursion so that the
function is structurally recursive and kernel-computable; every step
consumes at least one byte, so any `fuel ≥` length of the remaining
input is enough, and `utf8Chars` below always supplies enough. -/
def utf8CharsAux : Nat → List Nat → List Char
  | _, [] => []
  | 0, _ => []
  | fuel + 1, b :: rest =>
    if b ≤ 127 then Char.ofNat b :: utf8CharsAux fuel rest
    else if 194 ≤ b && b ≤ 223 then
      match rest with
      | [] => []
      | c :: r2 =>
        if contByte c then Char.ofNat ((b - 192) * 64 + (c - 128)) :: utf8CharsAux fuel r2
        else utf8CharsAux fuel (c :: r2)
    else if 224 ≤ b && b ≤ 239 then
      match rest with
      | [] => []
      | [c] => if cont1Ok b c then [] else utf8CharsAux fuel [c]
      | c :: d :: r3 =>
        if cont1Ok b c then
          if contByte d then
            Char.ofNat ((b - 224) * 4096 + (c - 128) * 64 + (d - 128)) :: utf8CharsAux fuel r3
          else utf8CharsAux fuel (d :: r3)
        else utf8CharsAux fuel (c :: d :: r3)
    else if 240 ≤ b && b ≤ 244 then
      match rest with
      | [] => []
      | [c] => if cont1Ok b c then [] else utf8CharsAux fuel [c]
      | [c, d] =>
        if cont1Ok b c then (if contByte d then [] else utf8CharsAux fuel [d])
        else utf8CharsAux fuel [c, d]
      | c :: d :: e :: r4 =>
        if cont1Ok b c then
          if contByte d then
            if contByte e then
              Char.ofNat ((b - 240) * 262144 + (c - 128) * 4096 + (d - 128) * 64 + (e - 128)) ::
                utf8CharsAux fuel r4
            else utf8CharsAux fuel (e :: r4)
          else utf8CharsAux fuel (d :: r4)
        else utf8CharsAux fuel (c :: d :: e :: r4)
    else utf8CharsAux fuel rest

/-- The decoded characters of a byte list (lossy UTF-8 decoding). -/
def utf8Chars (l : List Nat) : List Char := utf8CharsAux l.length l

/-- Decode a byte blob to a string, dropping undecodable sequences. -/
def utf8DecodeIgnore (content : List Nat) : String := String.mk (utf8Chars content)

/-! ## `utils/text_extraction.py` -/

namespace text_extraction

/-- An uploaded file as the extraction routine sees it: the
client-supplied filename (`UploadFile.filename`, possibly absent) and
the raw bytes produced by `await file.read()`. -/
structure UploadedFile where
  filename : Option String
  content : List Nat
deriving DecidableEq

/-- The exceptions `extract_text_from_uploaded_file` can raise:
`AllowedExtensionError` for an unsupported extension, `RuntimeError`
for extraction failures. -/
inductive ExtractErr where
  | allowedExtension (msg : String)
  | runtime (msg : String)
deriving DecidableEq

/-- Observable side effects of one extraction call, in order:
creating the named temporary file, reading the uploaded bytes, and the
`finally`-block `os.unlink` of the temporary file. -/
inductive Event where
  | acquireTemp
  | readContent
  | releaseTemp
deriving DecidableEq

/-- The extraction libraries as oracles on the materialized bytes:
availability of pdfminer / PyPDF2 (`None` when the import failed) and
the result of each library call, where `Except.error` models a raised
exception.  `pdfminer` may return `none` (Python `None`) for no text;
`pypdf2` yields the per-page texts; `docx` yields the paragraph texts. -/
structure ExtractEnv where
  pdfminerAvailable : Bool
  pdfminer : List Nat → Except String (Option String)
  pypdf2Available : Bool
  pypdf2 : List Nat → Except String (List String)
  docx : List Nat → Except String (List String)

/-- `ALLOWED_EXTS` from the source. -/
def ALLOWED_EXTS : List String := [".pdf", ".docx", ".txt"]

/-- The text produced by the first PDF strategy (pdfminer's layout-aware
`extract_text`): empty when the library is unavailable, when the call
raises (the `except` arm only logs a warning), or when it returns
`None`/`""` (the source's `or ""`). -/
def pdfminerText (env : ExtractEnv) (content : List Nat) : String :=
  if env.pdfminerAvailable then
    match env.pdfminer content with
    | .ok t => t.getD ""
    | .error _ => ""
  else ""

/-- The text after the second PDF strategy: PyPDF2's page-by-page
extraction (newline-joined page texts) is attempted only when the first
strategy produced no text and the library is available; its exceptions
are caught and leave the text unchanged. -/
def pdfText (env : ExtractEnv) (content : List Nat) : String :=
  let text1 := pdfminerText env content
  if text1 = "" && env.pypdf2Available then
    match env.pypdf2 content with
    | .ok pages => String.intercalate "\n" pages
    | .error _ => text1
  else text1

/-- `extract_text_from_uploaded_file`: extension check on the lowered
filename suffix, then materialization to a temp file, then the
per-format strategy chain, with the temp file unlinked in a `finally`
block.  Returns the result together with the event trace. -/
def extract_text_from_uploaded_file (env : ExtractEnv) (file : UploadedFile) :
    Except ExtractErr String × List Event :=
  let name := file.filename.getD "uploaded"
  let ext := pyLower (splitextExt name)
  if ALLOWED_EXTS.contains ext = false then
    (.error (.allowedExtension
      ("Unsupported extension: " ++ ext ++ ". Allowed: .docx, .pdf, .txt")), [])
  else
    let events := [Event.acquireTemp, Event.readContent]
    let content := file.content
    let res : Except ExtractErr String :=
      if ext = ".pdf" then
        if pdfText env content = "" then
          .error (.runtime "No PDF extractor available. Install pdfminer.six or PyPDF2.")
        else .ok (pdfText env content)
      else if ext = ".docx" then
        match env.docx content with
        | .ok paras => .ok (String.intercalate "\n" paras)
        | .error e => .error (.runtime ("Failed to read DOCX: " ++ e))
      else
        .ok (utf8DecodeIgnore content)
    match res with
    | .ok t => (.ok (pyStrip t), events ++ [Event.releaseTemp])
    | .error e => (.error e, events ++ [Event.releaseTemp])

end text_extraction

/-! ## `utils/ai_client.py` -/

namespace ai_client

/-- One chat message (`role`/`content` dict in the source). -/
structure Message where
  role : String
  content : String
deriving DecidableEq

/-- Client configuration: the resolved `self.api_key` (constructor
argument or the `OPENAI_API_KEY` environment value, `none` when
neither is set) and whether the `openai` import succeeded. -/
structure AIConfig where
  apiKey : Option String
  openaiInstalled : Bool

/-- Python truthiness of `self.api_key` (`None` and `""` are falsy). -/
def keyTruthy (cfg : AIConfig) : Bool :=
  match cfg.apiKey with
  | none => false
  | some s => s != ""

/-- `AIClient._has_openai`: `openai is not None and bool(self.api_key)`. -/
def hasOpenai (cfg : AIConfig) : Bool := cfg.openaiInstalled && keyTruthy cfg

/-- Outcome of one remote SDK call: success, a transient error
(`RateLimitError`, `ServiceUnavailableError`, `APIError` — the classes
the retry `except` arm catches), or any other exception (the final
`except Exception` arm). -/
inductive RemoteOutcome (α : Type) where
  | ok (v : α)
  | transient (msg : String)
  | fatal (msg : String)

/-- The `while True` retry loop shared in shape by `AIClient.chat` and
`AIClient.embed`.  `call n` is the outcome of the `n`-th remote call
(0-based); on a transient failure the attempt counter is bumped, the
loop raises once it exceeds `maxRetries`, and otherwise sleeps
`sleepFor attempt` and retries.  Returns the result (`Except.error`
models the raised `RuntimeError`) and the list of sleep durations in
seconds. -/
def retryLoop {α : Type} (call : Nat → RemoteOutcome α) (maxRetries : Nat)
    (sleepFor : Nat → ℚ) (exhaustMsg fatalMsg : String) (attempt : Nat) :
    Except String α × List ℚ :=
  match call attempt with
  | .ok v => (.ok v, [])
  | .fatal m => (.error (fatalMsg ++ m), [])
  | .transient m =>
    if h : attempt + 1 > maxRetries then (.error (exhaustMsg ++ m), [])
    else
      let p := retryLoop call maxRetries sleepFor exhaustMsg fatalMsg (attempt + 1)
      (p.1, sleepFor (attempt + 1) :: p.2)
termination_by maxRetries + 1 - attempt
decreasing_by omega

/-- `AIClient._local_chat_stub`: deterministic fallback chat reply. -/
def localChatStub (messages : List Message) : String :=
  let joined := String.intercalate " \n " (messages.map (fun m => m.content))
  let excerpt := pySlice (pyStrip joined) 500
  "[local-fallback] received " ++ toString (pyLen joined) ++ " chars; echo: " ++ excerpt

/-- The seed `AIClient._local_embed_stub` derives from the input text:
`seed = (seed * 1315423911) ^ ord(ch)` folded over the characters, then
masked with `0xFFFFFFFF`. -/
def embedSeed (text : String) : Nat :=
  (text.data.foldl (fun s c => (s * 1315423911) ^^^ c.toNat) 0) &&& 0xFFFFFFFF

/-- `AIClient._local_embed_stub`: deterministic pseudo-embedding.
`rng seed i` models draw `i` of `random.Random(seed).uniform(-1.0, 1.0)`
(the seeded Mersenne-Twister is an external library, taken as an
oracle); the produced dimension is `min dim 512` over the requested
`dim` (whose Python default is 1536). -/
def localEmbedStub (rng : Nat → Nat → ℚ) (text : String) (dim : Nat) : List ℚ :=
  let seed := embedSeed text
  let d := min dim 512
  (List.range d).map (rng seed)

/-- `AIClient.chat` on a message list: empty-input early return, local
stub when `_has_openai()` is false, otherwise the remote retry loop
with sleep `retry_backoff * 2 ** (attempt - 1) + random.random() * 0.1`
(`jrand n` models the `random.random()` draw before retry `n`) and a
final `content.strip()` on success. -/
def chat (cfg : AIConfig) (remote : Nat → RemoteOutcome String) (jrand : Nat → ℚ)
    (messages : List Message) (maxRetries : Nat) (retryBackoff : ℚ) :
    Except String String × List ℚ :=
  if messages.isEmpty then (.ok "", [])
  else if hasOpenai cfg = false then (.ok (localChatStub messages), [])
  else
    let p := retryLoop remote maxRetries
      (fun a => retryBackoff * 2 ^ (a - 1) + jrand a * (1 / 10))
      "OpenAI request failed after retries: " "Unexpected OpenAI error: " 0
    (p.1.map pyStrip, p.2)

/-- `AIClient.embed`: empty-text early return of `[]`, local stub when
`_has_openai()` is false, otherwise the remote retry loop with
hard-coded `max_retries = 3`, sleep `0.5 * 2 ** (attempt - 1)` and no
jitter. -/
def embed (cfg : AIConfig) (remote : Nat → RemoteOutcome (List ℚ))
    (rng : Nat → Nat → ℚ) (text : String) : Except String (List ℚ) × List ℚ :=
  if text = "" then (.ok [], [])
  else if hasOpenai cfg = false then (.ok (localEmbedStub rng text 1536), [])
  else
    retryLoop remote 3 (fun a => (1 / 2) * 2 ^ (a - 1))
      "Embedding request failed after retries: " "Unexpected OpenAI error: " 0

end ai_client

/-! ## `main.py`, `upload_resumes` -/

namespace main

open text_extraction

/-- One entry of the results list built by `upload_resumes`: the dict
holding `filename`, `score`, `missing_skills`, `remarks`. -/
structure MatchResult where
  filename : Option String
  score : ℚ
  missing_skills : List String
  remarks : String
deriving DecidableEq

/-- Stable insertion of `r` after every element whose score is at
least `r`'s (helper for the descending sort below). -/
def insertDesc (r : MatchResult) : List MatchResult → List MatchResult
  | [] => [r]
  | x :: xs => if r.score ≤ x.score then x :: insertDesc r xs else r :: x :: xs

/-- `sorted(results, key=lambda r: r.get("score", 0), reverse=True)`:
a stable sort by score descending. -/
def sortScoreDesc : List MatchResult → List MatchResult
  | [] => []
  | x :: xs => insertDesc x (sortScoreDesc xs)

/-- The result entry `upload_resumes` records for a résumé whose
extracted text is falsy: score 0 with an explanatory remark. -/
def failEntry (f : UploadedFile) : MatchResult :=
  { filename := f.filename
    score := 0
    missing_skills := ["Could not parse"]
    remarks := "Failed to extract text from resume." }

/-- The loop body of `upload_resumes` for one résumé: extract (a raised
exception propagates), record `failEntry` on empty text, otherwise take
`match_resume_to_jd`'s dict with its `filename` key overwritten.

`matchFn` stands for `match_resume_to_jd(jd_text, resume_text,
filename)`, which `main.py` imports from `utils.ai_client` but which is
absent from the sources; it is kept abstract (modelled from the spec as
an arbitrary per-résumé scoring function with no cross-résumé state). -/
def processResume (env : ExtractEnv)
    (matchFn : String → String → Option String → MatchResult)
    (jd : String) (f : UploadedFile) : Except ExtractErr MatchResult :=
  match (extract_text_from_uploaded_file env f).1 with
  | .error e => .error e
  | .ok text =>
    if text = "" then .ok (failEntry f)
    else .ok { matchFn jd text f.filename with filename := f.filename }

/-- The `for resume in resumes` loop: sequential, an exception raised
for one résumé propagates and abandons the rest. -/
def processResumes (env : ExtractEnv)
    (matchFn : String → String → Option String → MatchResult)
    (jd : String) : List UploadedFile → Except ExtractErr (List MatchResult)
  | [] => .ok []
  | f :: fs =>
    match processResume env matchFn jd f with
    | .error e => .error e
    | .ok r =>
      match processResumes env matchFn jd fs with
      | .error e => .error e
      | .ok rs => .ok (r :: rs)

/-- Observable outcome of the `upload_resumes` endpoint: the
missing-job-description error page, an uncaught exception, or the
results page. -/
inductive UploadOutcome where
  | noJD
  | raised (e : ExtractErr)
  | page (results : List MatchResult)
deriving DecidableEq

/-- `upload_resumes`: guard on a present job description, truncation to
the first 10 résumés (`resumes = resumes[:10]`), the scoring loop, and
the final descending sort by score. -/
def upload_resumes (env : ExtractEnv)
    (matchFn : String → String → Option String → MatchResult)
    (jdText : String) (resumes : List UploadedFile) : UploadOutcome :=
  if jdText = "" then .noJD
  else
    match processResumes env matchFn jdText (resumes.take 10) with
    | .error e => .raised e
    | .ok rs => .page (sortScoreDesc rs)

/-- The entry a résumé contributes to the results list when its
extraction does not raise: the scoring-failure entry on empty text,
otherwise the match result with the `filename` key overwritten. -/
def entryFor (env : ExtractEnv)
    (matchFn : String → String → Option String → MatchResult)
    (jd : String) (f : UploadedFile) : MatchResult :=
  match (extract_text_from_uploaded_file env f).1 with
  | .error _ => failEntry f
  | .ok text =>
    if text = "" then failEntry f
    else { matchFn jd text f.filename with filename := f.filename }

end main

/-! ## Concrete instances used to evaluate the model -/

namespace fixtures

open text_extraction ai_client main

/-- A runtime environment in which neither PDF library imported and the
DOCX parser succeeds with no paragraphs. -/
def envNoPdfLibs : ExtractEnv :=
  { pdfminerAvailable := false
    pdfminer := fun _ => .ok none
    pypdf2Available := false
    pypdf2 := fun _ => .ok []
    docx := fun _ => .ok [] }

/-- A runtime environment in which pdfminer succeeds with the text
`"Text"` on every document. -/
def envPdfminerOk : ExtractEnv :=
  { pdfminerAvailable := true
    pdfminer := fun _ => .ok (some "Text")
    pypdf2Available := false
    pypdf2 := fun _ => .ok []
    docx := fun _ => .ok [] }

/-- A `.txt` résumé whose bytes decode (and strip) to `"ok"`. -/
def fileGoodTxt : UploadedFile := { filename := some "good.txt", content := [111, 107] }

/-- A `.txt` résumé with no bytes: extraction succeeds with `""`. -/
def fileEmptyTxt : UploadedFile := { filename := some "empty.txt", content := [] }

/-- A `.pdf` résumé; with `envNoPdfLibs` its extraction raises. -/
def fileBadPdf : UploadedFile := { filename := some "bad.pdf", content := [1, 2] }

/-- An upload with an unsupported (uppercased) extension. -/
def fileExe : UploadedFile := { filename := some "evil.EXE", content := [77, 90] }

/-- A `.TXT` upload holding `" ok"` plus an invalid UTF-8 byte and a
trailing space. -/
def fileNoisyTxt : UploadedFile :=
  { filename := some "notes.TXT", content := [32, 111, 107, 255, 32] }

/-- A scoring stub standing in for `match_resume_to_jd`: every résumé
scores 1 with no missing skills. -/
def matchOne : String → String → Option String → MatchResult :=
  fun _ _ fn => { filename := fn, score := 1, missing_skills := [], remarks := "ok" }

/-- The result entry `matchOne` yields for `fileGoodTxt`. -/
def entryGoodTxt : MatchResult :=
  { filename := some "good.txt", score := 1, missing_skills := [], remarks := "ok" }

end fixtures

/-! ## General lemmas about the string and list helpers -/

section Lemmas

open text_extraction ai_client main fixtures

/-- Dropping a prefix of `p`-satisfying elements leaves a list whose
head, when present, falsifies `p`. -/
theorem head_dropWhile_false {α : Type} (p : α → Bool) :
    ∀ (l : List α) (a : α), (l.dropWhile p).head? = some a → p a = false := by
  intro l
  induction l with
  | nil => intro a h; simp [List.dropWhile] at h
  | cons x xs ih =>
    intro a h
    rw [List.dropWhile_cons] at h
    by_cases hp : p x
    · simp [hp] at h
      exact ih a h
    · simp [hp] at h
      subst h
      simpa using hp

/-- The last character of a stripped string is never whitespace. -/
theorem pyStrip_getLast (s : String) (c : Char)
    (h : (pyStrip s).data.getLast? = some c) : pyIsSpace c = false := by
  unfold pyStrip at h
  rw [List.getLast?_reverse] at h
  exact head_dropWhile_false pyIsSpace _ c h

/-- The first character of a stripped string is never whitespace. -/
theorem pyStrip_head (s : String) (c : Char)
    (h : (pyStrip s).data.head? = some c) : pyIsSpace c = false := by
  unfold pyStrip at h
  rw [List.head?_reverse] at h
  set X := (s.data.dropWhile pyIsSpace).reverse with hX
  obtain ⟨t, ht⟩ := List.dropWhile_suffix (l := X) pyIsSpace
  have hne : X.dropWhile pyIsSpace ≠ [] := by
    intro hnil
    rw [hnil] at h
    simp at h
  have h2 : X.getLast? = some c := by
    rw [← ht, List.getLast?_append_of_ne_nil t hne]
    exact h
  rw [hX, List.getLast?_reverse] at h2
  exact head_dropWhile_false pyIsSpace _ c h2

/-- Membership in a stable descending insertion. -/
theorem mem_insertDesc (r x : MatchResult) (l : List MatchResult) :
    x ∈ insertDesc r l ↔ x = r ∨ x ∈ l := by
  induction l with
  | nil => simp [insertDesc]
  | cons y ys ih =>
    by_cases h : r.score ≤ y.score
    · simp [insertDesc, h, ih]
      tauto
    · simp [insertDesc, h]

/-- Inserting into the sorted list permutes consing. -/
theorem perm_insertDesc (r : MatchResult) (l : List MatchResult) :
    List.Perm (insertDesc r l) (r :: l) := by
  induction l with
  | nil => simp [insertDesc]
  | cons y ys ih =>
    by_cases h : r.score ≤ y.score
    · simp only [insertDesc, h, if_pos]
      exact List.Perm.trans (ih.cons y) (List.Perm.swap r y ys)
    · simp [insertDesc, h]

/-- The descending sort is a permutation of its input. -/
theorem perm_sortScoreDesc (l : List MatchResult) : List.Perm (sortScoreDesc l) l := by
  induction l with
  | nil => simp [sortScoreDesc]
  | cons x xs ih =>
    exact List.Perm.trans (perm_insertDesc x (sortScoreDesc xs)) (ih.cons x)

/-- The descending sort preserves length. -/
theorem length_sortScoreDesc (l : List MatchResult) :
    (sortScoreDesc l).length = l.length :=
  (perm_sortScoreDesc l).length_eq

/-- Inserting into a score-descending list keeps it score-descending. -/
theorem sorted_insertDesc (r : MatchResult) (l : List MatchResult)
    (h : List.Sorted (fun a b => b.score ≤ a.score) l) :
    List.Sorted (fun a b => b.score ≤ a.score) (insertDesc r l) := by
  induction l with
  | nil => simp [insertDesc]
  | cons y ys ih =>
    rw [List.sorted_cons] at h
    by_cases hr : r.score ≤ y.score
    · simp only [insertDesc, hr, if_pos]
      rw [List.sorted_cons]
      constructor
      · intro b hb
        rw [mem_insertDesc] at hb
        rcases hb with hb | hb
        · rw [hb]; exact hr
        · exact h.1 b hb
      · exact ih h.2
    · simp only [insertDesc, hr, if_neg, not_false_iff]
      rw [List.sorted_cons]
      constructor
      · intro b hb
        rcases List.mem_cons.1 hb with hb | hb
        · rw [hb]; exact le_of_not_le hr
        · exact le_trans (h.1 b hb) (le_of_not_le hr)
      · rw [List.sorted_cons]; exact h

/-- The result of `sortScoreDesc` is sorted by score descending. -/
theorem sorted_sortScoreDesc (l : List MatchResult) :
    List.Sorted (fun a b => b.score ≤ a.score) (sortScoreDesc l) := by
  induction l with
  | nil => simp [sortScoreDesc]
  | cons x xs ih => exact sorted_insertDesc x (sortScoreDesc xs) ih

/-! ## Lemmas about the extraction routine -/

/-- The event trace of one extraction call is either empty (unsupported
extension) or acquire-read-release. -/
theorem extract_trace_cases (env : ExtractEnv) (f : UploadedFile) :
    (extract_text_from_uploaded_file env f).2 = [] ∨
    (extract_text_from_uploaded_file env f).2 =
      [Event.acquireTemp, Event.readContent, Event.releaseTemp] := by
  unfold extract_text_from_uploaded_file
  dsimp only
  split
  · exact Or.inl rfl
  · split <;> exact Or.inr rfl

/-- On the `.txt` path the extraction result is the lossily decoded,
stripped byte content, for every byte content. -/
theorem txt_branch (env : ExtractEnv) (f : UploadedFile)
    (h : pyLower (splitextExt (f.filename.getD "uploaded")) = ".txt") :
    (extract_text_from_uploaded_file env f).1 = .ok (pyStrip (utf8DecodeIgnore f.content)) := by
  unfold extract_text_from_uploaded_file
  dsimp only
  rw [h]
  simp [ALLOWED_EXTS]

/-- On the `.pdf` path the extraction result is determined by the text
the strategy chain `pdfText` produced: a raised `RuntimeError` when it
is empty, the stripped text otherwise. -/
theorem pdf_branch (env : ExtractEnv) (f : UploadedFile)
    (h : pyLower (splitextExt (f.filename.getD "uploaded")) = ".pdf") :
    (extract_text_from_uploaded_file env f).1 =
      (if pdfText env f.content = "" then
        .error (.runtime "No PDF extractor available. Install pdfminer.six or PyPDF2.")
      else .ok (pyStrip (pdfText env f.content))) := by
  unfold extract_text_from_uploaded_file
  dsimp only
  rw [h]
  by_cases hp : pdfText env f.content = "" <;> simp [ALLOWED_EXTS, hp]

/-! ## Lemmas about the batch loop -/

/-- When no extraction raises, the batch loop succeeds and yields
exactly one entry per résumé, in input order. -/
theorem processResumes_ok_map (env : ExtractEnv)
    (matchFn : String → String → Option String → MatchResult) (jd : String) :
    ∀ (docs : List UploadedFile),
      (∀ f ∈ docs, ∃ t, (extract_text_from_uploaded_file env f).1 = .ok t) →
      processResumes env matchFn jd docs = .ok (docs.map (entryFor env matchFn jd)) := by
  intro docs
  induction docs with
  | nil => intro _; simp [processResumes]
  | cons f fs ih =>
    intro h
    obtain ⟨t, ht⟩ := h f (List.mem_cons_self f fs)
    have hone : processResume env matchFn jd f = .ok (entryFor env matchFn jd f) := by
      unfold processResume entryFor
      rw [ht]
      by_cases h0 : t = "" <;> simp [h0]
    simp only [processResumes, List.map_cons]
    rw [hone, ih (fun g hg => h g (List.mem_cons_of_mem f hg))]

/-- A successful batch loop yields as many entries as résumés. -/
theorem processResumes_ok_length (env : ExtractEnv)
    (matchFn : String → String → Option String → MatchResult) (jd : String) :
    ∀ (docs : List UploadedFile) (rs : List MatchResult),
      processResumes env matchFn jd docs = .ok rs → rs.length = docs.length := by
  intro docs
  induction docs with
  | nil =>
    intro rs h
    simp only [processResumes] at h
    cases h
    rfl
  | cons f fs ih =>
    intro rs h
    simp only [processResumes] at h
    cases hp : processResume env matchFn jd f with
    | error e => rw [hp] at h; cases h
    | ok r =>
      rw [hp] at h
      cases hq : processResumes env matchFn jd fs with
      | error e => rw [hq] at h; cases h
      | ok rs2 =>
        rw [hq] at h
        cases h
        simp [ih rs2 hq]

/-! ## Lemmas about the retry loop -/

/-- When every call up to the retry budget fails transiently, the loop
raises the exhaustion error carrying the message of the last failure,
after sleeping once per retry. -/
theorem retryLoop_exhaust_from {α : Type} (call : Nat → RemoteOutcome α) (maxR : Nat)
    (sf : Nat → ℚ) (em fm : String) (m : Nat → String)
    (hm : ∀ i, i ≤ maxR → call i = .transient (m i)) :
    ∀ (k start : Nat), maxR - start = k → start ≤ maxR →
      retryLoop call maxR sf em fm start =
        (.error (em ++ m maxR), (List.range k).map (fun i => sf (start + i + 1))) := by
  intro k
  induction k with
  | zero =>
    intro start hk hle
    have hs : start = maxR := by omega
    subst hs
    rw [retryLoop, hm start le_rfl]
    dsimp only
    rw [dif_pos (by omega)]
    simp
  | succ k ih =>
    intro start hk hle
    have hlt : start < maxR := by omega
    rw [retryLoop, hm start (le_of_lt hlt)]
    dsimp only
    rw [dif_neg (by omega)]
    rw [ih (start + 1) (by omega) (by omega)]
    simp only [List.range_succ_eq_map, List.map_cons, List.map_map]
    refine congrArg (Prod.mk _) ?_
    have h1 : start + 0 + 1 = start + 1 := by omega
    rw [h1]
    congr 1
    apply List.map_congr_left
    intro i _
    simp only [Function.comp_apply]
    congr 1
    omega

/-- When the first `n` calls fail transiently and call `n` succeeds
within the retry budget, the loop returns that success after `n`
sleeps. -/
theorem retryLoop_success_from {α : Type} (call : Nat → RemoteOutcome α) (maxR : Nat)
    (sf : Nat → ℚ) (em fm : String) (m : Nat → String) (v : α) (n : Nat)
    (hf : ∀ i, i < n → call i = .transient (m i)) (hok : call n = .ok v) (hn : n ≤ maxR) :
    ∀ (k start : Nat), start + k = n →
      retryLoop call maxR sf em fm start =
        (.ok v, (List.range k).map (fun i => sf (start + i + 1))) := by
  intro k
  induction k with
  | zero =>
    intro start hk
    have hs : start = n := by omega
    subst hs
    rw [retryLoop, hok]
    dsimp only
    simp
  | succ k ih =>
    intro start hk
    have hlt : start < n := by omega
    rw [retryLoop, hf start hlt]
    dsimp only
    rw [dif_neg (by omega)]
    rw [ih (start + 1) (by omega)]
    simp only [List.range_succ_eq_map, List.map_cons, List.map_map]
    refine congrArg (Prod.mk _) ?_
    have h1 : start + 0 + 1 = start + 1 := by omega
    rw [h1]
    congr 1
    apply List.map_congr_left
    intro i _
    simp only [Function.comp_apply]
    congr 1
    omega

end Lemmas

/-! ## The claims -/

section Claims

open text_extraction ai_client main fixtures

/-- C3: for every uploaded file whose filename suffix, lowered, is not
one of `.pdf`, `.docx`, `.txt`, extraction fails with the
unsupported-extension error and its event trace is empty — in
particular the file content is never read, and the result does not
depend on it. -/
theorem unsupported_extension_rejected_before_read (env : ExtractEnv) (f : UploadedFile)
    (h : pyLower (splitextExt (f.filename.getD "uploaded")) ∉ ALLOWED_EXTS) :
    (extract_text_from_uploaded_file env f).1 =
      .error (.allowedExtension ("Unsupported extension: " ++
        pyLower (splitextExt (f.filename.getD "uploaded")) ++ ". Allowed: .docx, .pdf, .txt")) ∧
    (extract_text_from_uploaded_file env f).2 = [] := by
  have hc : ALLOWED_EXTS.contains (pyLower (splitextExt (f.filename.getD "uploaded"))) = false := by
    simpa using h
  unfold extract_text_from_uploaded_file
  dsimp only
  rw [hc]
  simp

/-- Witness for C3: `evil.EXE` is rejected (case-insensitively) with an
empty event trace, whatever the runtime environment's libraries would
have produced. -/
theorem unsupported_extension_rejected_before_read_witness :
    (extract_text_from_uploaded_file envNoPdfLibs fileExe).1 =
      .error (.allowedExtension "Unsupported extension: .exe. Allowed: .docx, .pdf, .txt") ∧
    (extract_text_from_uploaded_file envNoPdfLibs fileExe).2 = [] := by
  have h := unsupported_extension_rejected_before_read envNoPdfLibs fileExe (by decide)
  refine ⟨?_, h.2⟩
  rw [h.1]
  decide

/-- C7: every extraction call that acquires the temporary file (that
is, whose event trace contains the acquisition) also releases it,
whether extraction succeeded or raised. -/
theorem temp_file_released_every_path (env : ExtractEnv) (f : UploadedFile)
    (h : Event.acquireTemp ∈ (extract_text_from_uploaded_file env f).2) :
    Event.releaseTemp ∈ (extract_text_from_uploaded_file env f).2 := by
  rcases extract_trace_cases env f with h0 | h3
  · rw [h0] at h
    simp at h
  · rw [h3]
    simp

/-- Witness for C7: a `.txt` extraction acquires and releases the
temporary file. -/
theorem temp_file_released_every_path_witness :
    Event.acquireTemp ∈ (extract_text_from_uploaded_file envNoPdfLibs fileGoodTxt).2 ∧
    Event.releaseTemp ∈ (extract_text_from_uploaded_file envNoPdfLibs fileGoodTxt).2 :=
  ⟨by decide, temp_file_released_every_path envNoPdfLibs fileGoodTxt (by decide)⟩

/-- C8: for every document with a `.txt` suffix, extraction succeeds on
every byte content whatsoever, returning the UTF-8 decoding with
undecodable sequences dropped, whitespace-trimmed at the edges (the
returned text neither starts nor ends with whitespace). -/
theorem txt_decode_never_raises_trimmed (env : ExtractEnv) (f : UploadedFile)
    (h : pyLower (splitextExt (f.filename.getD "uploaded")) = ".txt") :
    (extract_text_from_uploaded_file env f).1 = .ok (pyStrip (utf8DecodeIgnore f.content)) ∧
    (∀ c, (pyStrip (utf8DecodeIgnore f.content)).data.head? = some c → pyIsSpace c = false) ∧
    (∀ c, (pyStrip (utf8DecodeIgnore f.content)).data.getLast? = some c → pyIsSpace c = false) :=
  ⟨txt_branch env f h,
   fun c hc => pyStrip_head _ c hc,
   fun c hc => pyStrip_getLast _ c hc⟩

/-- Witness for C8: a `.TXT` file containing `" ok"`, an invalid UTF-8
byte and a trailing space decodes to `"ok"`. -/
theorem txt_decode_never_raises_trimmed_witness :
    (extract_text_from_uploaded_file envNoPdfLibs fileNoisyTxt).1 = .ok "ok" := by
  have h := (txt_decode_never_raises_trimmed envNoPdfLibs fileNoisyTxt (by decide)).1
  rw [h]
  decide

/-- C2 (corrected): for `.pdf` documents the strategy order is as
claimed — pdfminer first, then, when it threw or produced no text,
PyPDF2 page by page — but when no strategy produces any text the call
raises a `RuntimeError` instead of returning an empty string. -/
theorem pdf_strategy_chain (env : ExtractEnv) (f : UploadedFile)
    (hext : pyLower (splitextExt (f.filename.getD "uploaded")) = ".pdf") :
    (∀ t, env.pdfminerAvailable = true → env.pdfminer f.content = .ok (some t) → t ≠ "" →
      (extract_text_from_uploaded_file env f).1 = .ok (pyStrip t)) ∧
    (∀ pages, pdfminerText env f.content = "" → env.pypdf2Available = true →
      env.pypdf2 f.content = .ok pages → String.intercalate "\n" pages ≠ "" →
      (extract_text_from_uploaded_file env f).1 =
        .ok (pyStrip (String.intercalate "\n" pages))) ∧
    (pdfText env f.content = "" →
      (extract_text_from_uploaded_file env f).1 =
        .error (.runtime "No PDF extractor available. Install pdfminer.six or PyPDF2.")) := by
  refine ⟨?_, ?_, ?_⟩
  · intro t hav hok hne
    have h1 : pdfminerText env f.content = t := by
      simp [pdfminerText, hav, hok]
    have h2 : pdfText env f.content = t := by
      simp [pdfText, h1, hne]
    rw [pdf_branch env f hext, h2]
    simp [hne]
  · intro pages h1 hav hok hne
    have h2 : pdfText env f.content = String.intercalate "\n" pages := by
      simp [pdfText, h1, hav, hok]
    rw [pdf_branch env f hext, h2]
    simp [hne]
  · intro h0
    rw [pdf_branch env f hext, h0]
    simp

/-- Counterexample to C2 as stated: with both PDF libraries missing no
strategy produces text, and extraction raises the `RuntimeError`
rather than returning the empty string. -/
theorem pdf_no_text_raises :
    (extract_text_from_uploaded_file envNoPdfLibs fileBadPdf).1 =
      .error (.runtime "No PDF extractor available. Install pdfminer.six or PyPDF2.") ∧
    (extract_text_from_uploaded_file envNoPdfLibs fileBadPdf).1 ≠ .ok "" := by
  constructor
  · decide
  · decide

/-- Witness for C2: when pdfminer returns the text `"Text"`, extraction
returns it. -/
theorem pdf_strategy_chain_witness :
    (extract_text_from_uploaded_file envPdfminerOk fileBadPdf).1 = .ok "Text" := by
  have h := (pdf_strategy_chain envPdfminerOk fileBadPdf (by decide)).1 "Text"
    (by decide) (by decide) (by decide)
  rw [h]
  decide

/-- C1 (corrected): for a batch of at most 10 résumés in which no
extraction raises, the endpoint returns one result per input résumé
sorted by score descending, and each résumé whose extracted text is
empty is recorded with score 0 and the explanatory remark; a raised
extraction error, by contrast, aborts the whole batch (see the
counterexample). -/
theorem upload_resumes_isolates_empty_text (env : ExtractEnv)
    (matchFn : String → String → Option String → MatchResult)
    (jd : String) (docs : List UploadedFile)
    (hjd : jd ≠ "") (hlen : docs.length ≤ 10)
    (hok : ∀ f ∈ docs, ∃ t, (extract_text_from_uploaded_file env f).1 = .ok t) :
    upload_resumes env matchFn jd docs =
      .page (sortScoreDesc (docs.map (entryFor env matchFn jd))) ∧
    (sortScoreDesc (docs.map (entryFor env matchFn jd))).length = docs.length ∧
    List.Sorted (fun a b => b.score ≤ a.score)
      (sortScoreDesc (docs.map (entryFor env matchFn jd))) ∧
    (∀ f ∈ docs, (extract_text_from_uploaded_file env f).1 = .ok "" →
      failEntry f ∈ sortScoreDesc (docs.map (entryFor env matchFn jd)) ∧
      (failEntry f).score = 0 ∧
      (failEntry f).remarks = "Failed to extract text from resume.") := by
  have htake : docs.take 10 = docs := List.take_of_length_le hlen
  have hmain : upload_resumes env matchFn jd docs =
      .page (sortScoreDesc (docs.map (entryFor env matchFn jd))) := by
    unfold upload_resumes
    rw [if_neg hjd, htake, processResumes_ok_map env matchFn jd docs hok]
  refine ⟨hmain, ?_, sorted_sortScoreDesc _, ?_⟩
  · rw [length_sortScoreDesc, List.length_map]
  · intro f hf hempty
    refine ⟨?_, rfl, rfl⟩
    have he : entryFor env matchFn jd f = failEntry f := by
      unfold entryFor
      rw [hempty]
      simp
    rw [(perm_sortScoreDesc _).mem_iff, ← he]
    exact List.mem_map_of_mem _ hf

/-- Counterexample to C1 as stated: in a batch of two résumés whose
second one raises during extraction (a PDF with no produced text), the
endpoint aborts with the raised error instead of returning two scored
results. -/
theorem upload_resumes_raised_aborts_batch :
    upload_resumes envNoPdfLibs matchOne "jd" [fileGoodTxt, fileBadPdf] =
      .raised (.runtime "No PDF extractor available. Install pdfminer.six or PyPDF2.") := by
  decide

/-- Witness for C1: a good résumé plus one with empty extracted text
yields a two-entry page, the failing one recorded by `failEntry`. -/
theorem upload_resumes_isolates_empty_text_witness :
    upload_resumes envNoPdfLibs matchOne "jd" [fileGoodTxt, fileEmptyTxt] =
      .page (sortScoreDesc
        ([fileGoodTxt, fileEmptyTxt].map (entryFor envNoPdfLibs matchOne "jd"))) ∧
    upload_resumes envNoPdfLibs matchOne "jd" [fileGoodTxt, fileEmptyTxt] =
      .page [entryGoodTxt, failEntry fileEmptyTxt] := by
  have h := upload_resumes_isolates_empty_text envNoPdfLibs matchOne "jd"
    [fileGoodTxt, fileEmptyTxt] (by decide) (by decide)
    (by
      intro f hf
      simp at hf
      rcases hf with rfl | rfl
      · exact ⟨"ok", by decide⟩
      · exact ⟨"", by decide⟩)
  refine ⟨h.1, ?_⟩
  rw [h.1]
  decide

/-- C10: the endpoint only ever processes the first 10 uploaded
résumés — its outcome coincides with the outcome on the truncated
input — and a returned results page never holds more than 10 entries. -/
theorem upload_resumes_caps_at_ten (env : ExtractEnv)
    (matchFn : String → String → Option String → MatchResult)
    (jd : String) (docs : List UploadedFile) :
    upload_resumes env matchFn jd docs = upload_resumes env matchFn jd (docs.take 10) ∧
    (∀ l, upload_resumes env matchFn jd docs = .page l → l.length ≤ 10) := by
  constructor
  · unfold upload_resumes
    rw [List.take_take]
    norm_num
  · intro l h
    unfold upload_resumes at h
    by_cases hjd : jd = ""
    · rw [if_pos hjd] at h
      cases h
    · rw [if_neg hjd] at h
      cases hq : processResumes env matchFn jd (docs.take 10) with
      | error e => rw [hq] at h; cases h
      | ok rs =>
        rw [hq] at h
        cases h
        rw [length_sortScoreDesc, processResumes_ok_length env matchFn jd _ rs hq]
        exact List.length_take_le 10 docs

/-- Witness for C10: 11 identical good résumés produce the same outcome
as their first 10, a page of exactly 10 entries. -/
theorem upload_resumes_caps_at_ten_witness :
    upload_resumes envNoPdfLibs matchOne "jd" (List.replicate 11 fileGoodTxt) =
      upload_resumes envNoPdfLibs matchOne "jd" ((List.replicate 11 fileGoodTxt).take 10) ∧
    (List.replicate 10 entryGoodTxt).length ≤ 10 := by
  have h := upload_resumes_caps_at_ten envNoPdfLibs matchOne "jd" (List.replicate 11 fileGoodTxt)
  exact ⟨h.1, h.2 (List.replicate 10 entryGoodTxt) (by decide)⟩

/-- C4: with the default budget of 3 retries, a transiently failing
chat call that succeeds within the budget returns the (stripped)
success value after sleeping `backoff * 2 ^ (attempt - 1)` plus a
jitter of at most 1/10 second before each retry; on exhaustion it
raises an error carrying the last underlying error message; and the
embed loop behaves the same with base 1/2 and zero jitter. -/
theorem remote_retry_policy (cfg : AIConfig)
    (remote : Nat → RemoteOutcome String) (remoteE : Nat → RemoteOutcome (List ℚ))
    (jrand : Nat → ℚ) (rng : Nat → Nat → ℚ)
    (messages : List Message) (text : String) (b : ℚ)
    (m mE : Nat → String) (v : String) (ve : List ℚ) (n nE : Nat)
    (hmsg : messages.isEmpty = false) (hkey : hasOpenai cfg = true)
    (htext : text ≠ "") (hj : ∀ a, 0 ≤ jrand a ∧ jrand a < 1)
    (hn : n ≤ 3) (hnE : nE ≤ 3) :
    ((∀ i, i < n → remote i = .transient (m i)) → remote n = .ok v →
      chat cfg remote jrand messages 3 b =
        (.ok (pyStrip v),
         (List.range n).map (fun i => b * 2 ^ i + jrand (i + 1) * (1 / 10)))) ∧
    ((∀ i, i ≤ 3 → remote i = .transient (m i)) →
      chat cfg remote jrand messages 3 b =
        (.error ("OpenAI request failed after retries: " ++ m 3),
         (List.range 3).map (fun i => b * 2 ^ i + jrand (i + 1) * (1 / 10)))) ∧
    (∀ i, b * 2 ^ i ≤ b * 2 ^ i + jrand (i + 1) * (1 / 10) ∧
          b * 2 ^ i + jrand (i + 1) * (1 / 10) < b * 2 ^ i + 1 / 10) ∧
    ((∀ i, i < nE → remoteE i = .transient (mE i)) → remoteE nE = .ok ve →
      embed cfg remoteE rng text =
        (.ok ve, (List.range nE).map (fun i => (1 / 2) * 2 ^ i))) ∧
    ((∀ i, i ≤ 3 → remoteE i = .transient (mE i)) →
      embed cfg remoteE rng text =
        (.error ("Embedding request failed after retries: " ++ mE 3),
         (List.range 3).map (fun i => (1 / 2) * 2 ^ i))) := by
  have hchat : chat cfg remote jrand messages 3 b =
      ((retryLoop remote 3 (fun a => b * 2 ^ (a - 1) + jrand a * (1 / 10))
        "OpenAI request failed after retries: " "Unexpected OpenAI error: " 0).1.map pyStrip,
       (retryLoop remote 3 (fun a => b * 2 ^ (a - 1) + jrand a * (1 / 10))
        "OpenAI request failed after retries: " "Unexpected OpenAI error: " 0).2) := by
    unfold chat
    rw [hmsg, hkey]
    simp
  have hembed : embed cfg remoteE rng text =
      retryLoop remoteE 3 (fun a => (1 / 2) * 2 ^ (a - 1))
        "Embedding request failed after retries: " "Unexpected OpenAI error: " 0 := by
    unfold embed
    rw [if_neg htext, hkey]
    simp
  refine ⟨?_, ?_, ?_, ?_, ?_⟩
  · intro hf hok
    rw [hchat]
    rw [retryLoop_success_from remote 3 _ _ _ m v n hf hok hn n 0 (by omega)]
    simp only [Except.map_ok]
    refine congrArg (Prod.mk _) ?_
    apply List.map_congr_left
    intro i _
    simp [Nat.add_sub_cancel]
  · intro hm
    rw [hchat]
    rw [retryLoop_exhaust_from remote 3 _ _ _ m hm 3 0 (by omega) (by omega)]
    simp only [Except.map_error]
    refine congrArg (Prod.mk _) ?_
    apply List.map_congr_left
    intro i _
    simp [Nat.add_sub_cancel]
  · intro i
    constructor
    · have h0 := (hj (i + 1)).1
      nlinarith
    · have h1 := (hj (i + 1)).2
      nlinarith
  · intro hf hok
    rw [hembed]
    rw [retryLoop_success_from remoteE 3 _ _ _ mE ve nE hf hok hnE nE 0 (by omega)]
    refine congrArg (Prod.mk _) ?_
    apply List.map_congr_left
    intro i _
    simp [Nat.add_sub_cancel]
  · intro hm
    rw [hembed]
    rw [retryLoop_exhaust_from remoteE 3 _ _ _ mE hm 3 0 (by omega) (by omega)]
    refine congrArg (Prod.mk _) ?_
    apply List.map_congr_left
    intro i _
    simp [Nat.add_sub_cancel]

/-- Witness for C4: two transient chat failures followed by success
return the stripped success value after sleeps 1 and 2; an embed call
that keeps failing raises after sleeps 1/2, 1, 2 with the last error
message. -/
theorem remote_retry_policy_witness :
    chat ⟨some "k", true⟩ (fun i => if i < 2 then .transient "boom" else .ok " hi ")
      (fun _ => 0) [⟨"user", "q"⟩] 3 1 = (.ok "hi", [1, 2]) ∧
    embed ⟨some "k", true⟩ (fun _ => .transient "eboom") (fun _ _ => 0) "x" =
      (.error "Embedding request failed after retries: eboom", [1 / 2, 1, 2]) := by
  have h := remote_retry_policy ⟨some "k", true⟩
    (fun i => if i < 2 then .transient "boom" else .ok " hi ") (fun _ => .transient "eboom")
    (fun _ => 0) (fun _ _ => 0) [⟨"user", "q"⟩] "x" 1
    (fun _ => "boom") (fun _ => "eboom") " hi " [] 2 0
    (by decide) (by decide) (by decide) (fun a => by norm_num) (by omega) (by omega)
  constructor
  · have h1 := h.1 (by
      intro i hi
      simp only [if_pos hi])
      (by norm_num)
    rw [h1]
    simp only [Prod.mk.injEq]
    constructor
    · decide
    · norm_num [List.range_succ]
  · have h2 := h.2.2.2.2 (by intro i _; rfl)
    rw [h2]
    simp only [Prod.mk.injEq]
    constructor
    · decide
    · norm_num [List.range_succ]

/-- C5 (corrected): the local embedding stub returns a vector of
length `min dim 512` — 512 under the default request of 1536, but
shorter when a smaller dimension is requested — every component lies
in `[-1, 1]` granted the seeded generator's range, the output is a
pure function of the input text, and texts with different masked
seeds receive different vectors whenever the generator separates the
seeds on the first draw. -/
theorem local_embed_stub_behavior (rng : Nat → Nat → ℚ)
    (hr : ∀ s i, -1 ≤ rng s i ∧ rng s i ≤ 1) (text t2 : String) (dim : Nat) :
    (localEmbedStub rng text dim).length = min dim 512 ∧
    (localEmbedStub rng text 1536).length = 512 ∧
    (∀ x ∈ localEmbedStub rng text dim, -1 ≤ x ∧ x ≤ 1) ∧
    (1 ≤ dim → embedSeed text ≠ embedSeed t2 →
      rng (embedSeed text) 0 ≠ rng (embedSeed t2) 0 →
      localEmbedStub rng text dim ≠ localEmbedStub rng t2 dim) := by
  refine ⟨?_, ?_, ?_, ?_⟩
  · unfold localEmbedStub
    simp
  · unfold localEmbedStub
    simp
  · intro x hx
    unfold localEmbedStub at hx
    simp only [List.mem_map] at hx
    obtain ⟨i, _, hi⟩ := hx
    rw [← hi]
    exact hr (embedSeed text) i
  · intro hdim hseed hrng heq
    apply hrng
    have h0 : ∀ (t : String), (localEmbedStub rng t dim)[0]? = some (rng (embedSeed t) 0) := by
      intro t
      unfold localEmbedStub
      rw [List.getElem?_map, List.getElem?_range (by omega)]
      rfl
    have hh := h0 text
    rw [heq, h0 t2] at hh
    exact Option.some.inj hh.symm

/-- Counterexample to C5 as stated: requesting dimensionality 8 yields
a vector of length 8, not the fixed 512. -/
theorem local_embed_stub_dim_counterexample :
    (localEmbedStub (fun _ _ => 0) "a" 8).length = 8 ∧ (8 : Nat) ≠ 512 := by
  constructor
  · unfold localEmbedStub
    simp
  · decide

/-- Witness for C5: the constant-zero generator satisfies the range
contract and the default-request vector for `"hello"` has length 512;
the call is trivially reproducible. -/
theorem local_embed_stub_behavior_witness :
    ((-1 : ℚ) ≤ 0 ∧ (0 : ℚ) ≤ 1) ∧
    (localEmbedStub (fun _ _ => 0) "hello" 1536).length = 512 := by
  refine ⟨by norm_num, ?_⟩
  exact (local_embed_stub_behavior (fun _ _ => 0) (fun s i => by norm_num) "hello" "x" 1536).2.1

/-- C6: whenever the configured credential is falsy, a chat call
returns the deterministic local stub output (or `""` on an empty
message list) with no sleeps, independently of the remote behaviour
and of the jitter source, and an embed call likewise returns its
deterministic local stub output (or `[]` on empty text). -/
theorem no_credential_local_fallback (cfg : AIConfig) (hkey : keyTruthy cfg = false)
    (remote remote2 : Nat → RemoteOutcome String) (jrand jrand2 : Nat → ℚ)
    (remoteE : Nat → RemoteOutcome (List ℚ)) (rng : Nat → Nat → ℚ)
    (messages : List Message) (text : String) (mr : Nat) (rb : ℚ) :
    chat cfg remote jrand messages mr rb =
      (.ok (if messages.isEmpty then "" else localChatStub messages), []) ∧
    chat cfg remote jrand messages mr rb = chat cfg remote2 jrand2 messages mr rb ∧
    embed cfg remoteE rng text =
      (.ok (if text = "" then [] else localEmbedStub rng text 1536), []) := by
  have h : hasOpenai cfg = false := by
    unfold hasOpenai
    rw [hkey]
    simp
  refine ⟨?_, ?_, ?_⟩
  · by_cases hm : messages.isEmpty <;> simp [chat, h, hm]
  · by_cases hm : messages.isEmpty <;> simp [chat, h, hm]
  · by_cases ht : text = "" <;> simp [embed, h, ht]

/-- Witness for C6: without a key, the chat stub answer for `"hello"`
is the documented deterministic string, and embed returns the local
stub vector, for a remote oracle that would always fail. -/
theorem no_credential_local_fallback_witness :
    keyTruthy ⟨none, true⟩ = false ∧
    chat ⟨none, true⟩ (fun _ => .fatal "net") (fun _ => 0) [⟨"user", "hello"⟩] 3 1 =
      (.ok "[local-fallback] received 5 chars; echo: hello", []) ∧
    embed ⟨none, true⟩ (fun _ => .fatal "net") (fun _ _ => 0) "x" =
      (.ok (localEmbedStub (fun _ _ => 0) "x" 1536), []) := by
  have h := no_credential_local_fallback ⟨none, true⟩ (by decide)
    (fun _ => .fatal "net") (fun _ => .fatal "net") (fun _ => 0) (fun _ => 0)
    (fun _ => .fatal "net") (fun _ _ => 0) [⟨"user", "hello"⟩] "x" 3 1
  refine ⟨by decide, ?_, ?_⟩
  · rw [h.1]
    decide
  · rw [h.2.2]
    simp

/-- C9: for the empty input text, embed returns the empty list with no
sleeps, independently of credential and remote behaviour; its length 0
differs from the local fallback's fixed length 512, so the fallback
was not consulted. -/
theorem embed_empty_returns_empty_list (cfg : AIConfig)
    (remote : Nat → RemoteOutcome (List ℚ)) (rng : Nat → Nat → ℚ) :
    embed cfg remote rng "" = (.ok [], []) ∧
    (localEmbedStub rng "" 1536).length = 512 := by
  constructor
  · unfold embed
    simp
  · unfold localEmbedStub
    simp

end Claims

end RecruitAI
